import Mathlib

/-!
Shallow embedding of `ampy/pyboard.py` (the pyboard interface of the ampy
repository) and proofs about its raw-REPL protocol, output framing,
chunked command transmission, telnet login relay, and transport selection.

Bytes are modelled as `List Nat` (each element one byte value).  A serial
channel is modelled by the finite list of bytes it has pending: a read
primitive consumes a prefix of that list, and a short read (pyserial's
timeout behaviour) is modelled by the pending list running out.
-/

/-- Byte values of a string literal (all literals in the source are ASCII). -/
def strBytes (s : String) : List Nat := s.toList.map Char.toNat

/-- The single error class `PyboardError` of pyboard.py.  Its raise sites are
distinguishable by their arguments: `PyboardError(msg)` for protocol failures
(modelled by `protocol msg`) and `PyboardError('exception', ret, ret_err)`
raised by `exec_` for device-reported runtime failures (modelled by
`execException ret ret_err`, the spec's RemoteExecutionError). -/
inductive PyboardError where
  | protocol (msg : String)
  | execException (ret ret_err : List Nat)
deriving DecidableEq, Repr

/-- Python's `in` operator on bytes: `needle in haystack` is contiguous
substring containment. -/
def bytesIn (needle haystack : List Nat) : Bool :=
  decide (needle <:+: haystack)

/-- pyserial's `serial.read_until(b'\x04')` on a channel with the given
pending bytes: reads byte by byte until the 0x04 terminator is consumed
(returned data includes it) and returns the data together with the bytes
left pending; if the pending bytes run out first (timeout), it returns
everything read so far, without a terminator. -/
def serial_read_until : List Nat → List Nat × List Nat
  | [] => ([], [])
  | b :: rest =>
    if b = 4 then ([4], rest)
    else
      let dr := serial_read_until rest
      (b :: dr.1, dr.2)

/-- `Pyboard.read_until` (pyboard.py lines 155-159): despite its signature it
ignores both `min_num_bytes` and `timeout` and delegates directly to
`self.serial.read_until(ending)`; if a `data_consumer` is present the data is
passed to it.  Returns (data, chunks fed to the consumer, bytes left pending).
All `follow` call sites use `ending = b'\x04'`. -/
def read_until (min_num_bytes : Nat) (timeout : Option Nat) (hasConsumer : Bool)
    (stream : List Nat) : List Nat × List (List Nat) × List Nat :=
  let dr := serial_read_until stream
  (dr.1, if hasConsumer then [dr.1] else [], dr.2)

/-- `Pyboard.follow` (pyboard.py lines 182-199): read until the first 0x04
sentinel for normal output (streaming to the optional consumer), then until a
second 0x04 for error output; a read not ending in the sentinel raises the
corresponding timeout `PyboardError`.  Returns the result together with the
chunks that were fed to the consumer (`self.serial.flushInput()` has no
effect on the returned data and is not modelled). -/
def follow (timeout : Option Nat) (hasConsumer : Bool) (stream : List Nat) :
    Except PyboardError (List Nat × List Nat) × List (List Nat) :=
  let r1 := read_until 1 timeout hasConsumer stream
  let data := r1.1
  let emitted := r1.2.1
  if !(([4] : List Nat).isSuffixOf data) then
    (.error (.protocol "timeout waiting for first EOF reception"), emitted)
  else
    let r2 := read_until 1 timeout false r1.2.2
    let data_err := r2.1
    if !(([4] : List Nat).isSuffixOf data_err) then
      (.error (.protocol "timeout waiting for second EOF reception"), emitted)
    else
      (.ok (data.dropLast, data_err.dropLast), emitted)

/-- The successive slices `command_bytes[i:min(i + 256, len(command_bytes))]`
for `i in range(0, len(command_bytes), 256)` written by the for loop of
`Pyboard.exec_raw_no_follow` (pyboard.py lines 211-213). -/
def writeChunks : List Nat → List (List Nat)
  | [] => []
  | b :: rest => List.take 256 (b :: rest) :: writeChunks (List.drop 256 (b :: rest))
termination_by cb => cb.length
decreasing_by simp [List.length_drop, List.length_cons]; omega

/-- The two ack bytes `b'OK'`. -/
def okBytes : List Nat := [79, 75]

/-- `Pyboard.exec_raw_no_follow` (pyboard.py lines 201-219): write the command
in 256-byte chunks, then a single 0x04; then `self.serial.read(2)` and require
the ack `b'OK'`.  Returns the list of writes performed and either the channel
bytes left after the 2-byte ack read, or the `PyboardError`. -/
def exec_raw_no_follow (command_bytes : List Nat) (channel : List Nat) :
    List (List Nat) × Except PyboardError (List Nat) :=
  let writes := writeChunks command_bytes ++ [[4]]
  let data := channel.take 2
  if data ≠ okBytes then
    (writes, .error (.protocol "could not exec command"))
  else
    (writes, .ok (channel.drop 2))

/-- `Pyboard.exec_raw` (pyboard.py lines 221-224): `exec_raw_no_follow` then
`follow` on the remaining channel bytes. -/
def exec_raw (command : List Nat) (timeout : Option Nat) (hasConsumer : Bool)
    (channel : List Nat) : Except PyboardError (List Nat × List Nat) :=
  match (exec_raw_no_follow command channel).2 with
  | .error e => .error e
  | .ok rest => (follow timeout hasConsumer rest).1

/-- `Pyboard.exec_` (pyboard.py lines 231-235): run `exec_raw` (default
timeout 10, no consumer); a non-empty (truthy) `ret_err` raises
`PyboardError('exception', ret, ret_err)`, else return `ret`. -/
def exec_ (command : List Nat) (channel : List Nat) : Except PyboardError (List Nat) :=
  match exec_raw command (some 10) false channel with
  | .error e => .error e
  | .ok (ret, ret_err) =>
    if ret_err ≠ [] then .error (.execException ret ret_err) else .ok ret

/-- The raw-mode banner suffix `b'raw REPL; CTRL-B to exit\r\n'`. -/
def rawReplBanner : List Nat := strBytes "raw REPL; CTRL-B to exit\r\n"

/-- `Pyboard.isPrompt` (pyboard.py lines 246-251): reads all pending bytes and
compares them with `b'>'`. -/
def isPrompt (data : List Nat) : Bool := data == [62]

/-- In `enter_raw_repl` the guard is `if not self.isPrompt:` with no call
parentheses, so it tests the truthiness of the bound-method object itself,
and in Python a bound method is always truthy. -/
def isPrompt_methodObject_truthy : Bool := true

/-- `Pyboard.enter_raw_repl` (pyboard.py lines 161-176) after the control
bytes are sent, parametrised by the `data` returned by
`read_until(1, b'raw REPL; CTRL-B to exit\r\n')`: raise unless `data` ends
with the banner suffix, then the (vacuous) `not self.isPrompt` guard. -/
def enter_raw_repl (data : List Nat) : Except PyboardError Unit :=
  if !(rawReplBanner.isSuffixOf data) then
    .error (.protocol "could not enter raw repl")
  else if !isPrompt_methodObject_truthy then
    .error (.protocol "could not enter raw repl")
  else
    .ok ()

/-- One iteration of the while-loop body of `TelnetToSerial.read`
(pyboard.py lines 90-101), given the bytes `data` returned by this
iteration's `self.tn.read_eager()`.  Note `timeout_count = 0` is the first
statement of the loop body, so the counter is reset on every iteration
before the break test compares it with `4 * read_timeout`.  Returns the new
FIFO contents and whether the loop breaks. -/
def readIter (read_timeout : Option Nat) (fifo : List Nat) (data : List Nat) :
    List Nat × Bool :=
  let timeout_count := 0
  if data.length ≠ 0 then
    (fifo ++ data, false)
  else
    if (match read_timeout with
        | some t => decide (timeout_count > 4 * t)
        | none => false) then
      (fifo, true)
    else
      (fifo, false)

/-- The while loop of `TelnetToSerial.read`: `polls` lists the successive
results of `self.tn.read_eager()`.  `none` means the loop is still running
after consuming all the listed polls; `some fifo` means it terminated (by
the loop condition or the break) with the given FIFO contents. -/
def read_loop (read_timeout : Option Nat) (size : Nat) (polls : List (List Nat))
    (fifo : List Nat) : Option (List Nat) :=
  if fifo.length < size then
    match polls with
    | [] => none
    | d :: rest =>
      let step := readIter read_timeout fifo d
      if step.2 then some step.1 else read_loop read_timeout size rest step.1
  else
    some fifo

/-- The literal `b'Login as:'`. -/
def loginPrompt : List Nat := strBytes "Login as:"

/-- The literal `b'Password:'`. -/
def passwordPrompt : List Nat := strBytes "Password:"

/-- The banner substring `b'for more information.'` tested by the third
handshake step. -/
def bannerNeedle : List Nat := strBytes "for more information."

/-- CRLF line terminator appended to the username and password lines. -/
def crlf : List Nat := [13, 10]

/-- The three `tn.read_until` results observed during `TelnetToSerial.__init__`. -/
structure TelnetReads where
  loginResp : List Nat
  passwordResp : List Nat
  bannerResp : List Nat

/-- `TelnetToSerial.__init__` (pyboard.py lines 60-78) after the connection
is made, parametrised by the three handshake reads: each prompt literal must
occur (`in`) in the corresponding read before the next step runs; on success
the FIFO is initialised empty (`.ok []`), otherwise
`PyboardError('Failed to establish a telnet connection with the board')` is
raised.  Returns the writes performed and the outcome. -/
def telnet_init (user password : List Nat) (r : TelnetReads) :
    List (List Nat) × Except PyboardError (List Nat) :=
  if bytesIn loginPrompt r.loginResp then
    if bytesIn passwordPrompt r.passwordResp then
      if bytesIn bannerNeedle r.bannerResp then
        ([user ++ crlf, password ++ crlf], .ok [])
      else
        ([user ++ crlf, password ++ crlf],
         .error (.protocol "Failed to establish a telnet connection with the board"))
    else
      ([user ++ crlf],
       .error (.protocol "Failed to establish a telnet connection with the board"))
  else
    ([], .error (.protocol "Failed to establish a telnet connection with the board"))

/-- The two transports `Pyboard.__init__` can select. -/
inductive Transport where
  | telnet
  | serial
deriving DecidableEq, Repr

/-- The closed code-point ranges on which Python's `str.isdigit` is true: the
characters with Unicode property Numeric_Type=Decimal or Numeric_Type=Digit
(the decimal-digit ranges of every script plus the digit-typed characters
such as superscripts and circled digits), enumerated from CPython 3.11's
Unicode tables.  The first range (48, 57) is the ASCII digits. -/
def pyDigitRanges : List (Nat × Nat) :=
  [(48, 57), (178, 179), (185, 185), (1632, 1641), (1776, 1785), (1984, 1993),
   (2406, 2415), (2534, 2543), (2662, 2671), (2790, 2799), (2918, 2927),
   (3046, 3055), (3174, 3183), (3302, 3311), (3430, 3439), (3558, 3567),
   (3664, 3673), (3792, 3801), (3872, 3881), (4160, 4169), (4240, 4249),
   (4969, 4977), (6112, 6121), (6160, 6169), (6470, 6479), (6608, 6618),
   (6784, 6793), (6800, 6809), (6992, 7001), (7088, 7097), (7232, 7241),
   (7248, 7257), (8304, 8304), (8308, 8313), (8320, 8329), (9312, 9320),
   (9332, 9340), (9352, 9360), (9450, 9450), (9461, 9469), (9471, 9471),
   (10102, 10110), (10112, 10120), (10122, 10130), (42528, 42537),
   (43216, 43225), (43264, 43273), (43472, 43481), (43504, 43513),
   (43600, 43609), (44016, 44025), (65296, 65305), (66720, 66729),
   (68160, 68163), (68912, 68921), (69216, 69224), (69714, 69722),
   (69734, 69743), (69872, 69881), (69942, 69951), (70096, 70105),
   (70384, 70393), (70736, 70745), (70864, 70873), (71248, 71257),
   (71360, 71369), (71472, 71481), (71904, 71913), (72016, 72025),
   (72784, 72793), (73040, 73049), (73120, 73129), (92768, 92777),
   (92864, 92873), (93008, 93017), (120782, 120831), (123200, 123209),
   (123632, 123641), (125264, 125273), (127232, 127242), (130032, 130041)]

/-- Python's `str.isdigit` on a single character: a Unicode digit test, not
an ASCII one (`'١'.isdigit()` and `'²'.isdigit()` are both True). -/
def pyIsDigit (c : Char) : Bool :=
  pyDigitRanges.any (fun r => decide (r.1 ≤ c.toNat ∧ c.toNat ≤ r.2))

/-- The transport choice of `Pyboard.__init__` (pyboard.py lines 125-131):
`device and device[0].isdigit() and device[-1].isdigit() and
device.count('.') == 3` selects `TelnetToSerial`, anything else the local
serial port.  `str.isdigit` is the Unicode digit test `pyIsDigit`. -/
def pyboard_select (device : List Char) : Transport :=
  match device with
  | [] => Transport.serial
  | c :: rest =>
    if pyIsDigit c && pyIsDigit ((c :: rest).getLast (List.cons_ne_nil c rest))
        && (List.count '.' (c :: rest) == 3) then
      Transport.telnet
    else
      Transport.serial

/-- An address made of Arabic-Indic digits (U+0661) and three dots:
`"١.١.١.١"`.  Python's `str.isdigit` is True on U+0661, so the source
classifies this address as a network target, although no character of it is
an ASCII digit. -/
def arabicIndicAddr : List Char :=
  ['١', '.', '١', '.', '١', '.', '١']

/-! ### Helper lemmas about the channel read primitive and framing -/

/-- A pending stream without the 0x04 sentinel is read in full (timeout). -/
theorem serial_read_until_no_eot (s : List Nat) (h : 4 ∉ s) :
    serial_read_until s = (s, []) := by
  induction s with
  | nil => rfl
  | cons b t ih =>
    simp only [List.mem_cons, not_or] at h
    have hb : b ≠ 4 := fun hb => h.1 hb.symm
    simp [serial_read_until, hb, ih h.2]

/-- Reading a stream whose first sentinel byte follows `out` consumes exactly
`out` plus the sentinel and leaves the rest pending. -/
theorem serial_read_until_split (out rest : List Nat) (h : 4 ∉ out) :
    serial_read_until (out ++ 4 :: rest) = (out ++ [4], rest) := by
  induction out with
  | nil => simp [serial_read_until]
  | cons b t ih =>
    simp only [List.mem_cons, not_or] at h
    have hb : b ≠ 4 := fun hb => h.1 hb.symm
    simp [serial_read_until, hb, ih h.2]

/-- A read ending in the sentinel passes the `endswith(b'\x04')` test. -/
theorem eot_suffix_concat (s : List Nat) :
    ([4] : List Nat).isSuffixOf (s ++ [4]) = true :=
  List.isSuffixOf_iff_suffix.mpr (List.suffix_append s [4])

/-- A read containing no sentinel fails the `endswith(b'\x04')` test. -/
theorem eot_suffix_false (s : List Nat) (h : 4 ∉ s) :
    ([4] : List Nat).isSuffixOf s = false := by
  rw [Bool.eq_false_iff]
  intro hc
  exact h ((List.isSuffixOf_iff_suffix.mp hc).subset (by simp))

/-- `follow` on a correctly framed pending stream returns the two outputs. -/
theorem follow_ok (t : Option Nat) (c : Bool) (out err : List Nat)
    (hout : 4 ∉ out) (herr : 4 ∉ err) :
    (follow t c (out ++ 4 :: (err ++ [4]))).1 = .ok (out, err) := by
  simp [follow, read_until, serial_read_until_split out _ hout,
    serial_read_until_split err [] herr, eot_suffix_concat, List.dropLast_concat]

/-- `follow` on a pending stream with no sentinel raises the first-EOF error. -/
theorem follow_err1 (t : Option Nat) (c : Bool) (s : List Nat) (h : 4 ∉ s) :
    (follow t c s).1 = .error (.protocol "timeout waiting for first EOF reception") := by
  simp [follow, read_until, serial_read_until_no_eot s h, eot_suffix_false s h]

/-- `follow` on a pending stream with exactly one sentinel raises the
second-EOF error. -/
theorem follow_err2 (t : Option Nat) (c : Bool) (out rest : List Nat)
    (hout : 4 ∉ out) (hrest : 4 ∉ rest) :
    (follow t c (out ++ 4 :: rest)).1 =
      .error (.protocol "timeout waiting for second EOF reception") := by
  simp [follow, read_until, serial_read_until_split out rest hout, eot_suffix_concat,
    serial_read_until_no_eot rest hrest, eot_suffix_false rest hrest]

/-- The chunks of the transmission loop concatenate back to the payload. -/
theorem writeChunks_flatten (cb : List Nat) : (writeChunks cb).flatten = cb := by
  induction cb using writeChunks.induct with
  | case1 => simp [writeChunks]
  | case2 b rest ih =>
    rw [writeChunks]
    simp only [List.flatten_cons, ih, List.take_append_drop]

/-- Every chunk of the transmission loop holds at most 256 bytes. -/
theorem writeChunks_le256 (cb : List Nat) :
    ∀ chunk ∈ writeChunks cb, chunk.length ≤ 256 := by
  induction cb using writeChunks.induct with
  | case1 => simp [writeChunks]
  | case2 b rest ih =>
    intro chunk hc
    rw [writeChunks] at hc
    rcases List.mem_cons.mp hc with h | h
    · subst h
      simp [List.length_take]
    · exact ih chunk h

/-! ### Claim theorems -/

/-- Claim C1: for every byte stream consisting of normal-output bytes, a 0x04
sentinel, error-output bytes and a second 0x04 sentinel, `follow` returns the
pair (normal-output, error-output) with both trailing sentinels stripped. -/
theorem follow_framed_response_ok (t : Option Nat) (c : Bool) (out err : List Nat)
    (hout : 4 ∉ out) (herr : 4 ∉ err) :
    (follow t c (out ++ 4 :: (err ++ [4]))).1 = .ok (out, err) :=
  follow_ok t c out err hout herr

/-- Claim C1 witness: on the stream `b'hello' + 0x04 + b'' + 0x04`, `follow`
returns normal-output `b'hello'` and error-output `b''`. -/
theorem follow_framed_response_ok_witness :
    (follow (some 10) false (strBytes "hello" ++ 4 :: ([] ++ [4]))).1 =
      .ok (strBytes "hello", []) :=
  follow_framed_response_ok (some 10) false (strBytes "hello") [] (by decide) (by decide)

/-- Claim C2 (code bug): the while loop of `TelnetToSerial.read` never breaks
when the transport supplies no bytes, for every configured `read_timeout` and
every number of empty polls, because `timeout_count` is reset to 0 at the top
of each iteration, so the poll budget `4 * read_timeout` is never exhausted
and the read blocks forever instead of returning a short read. -/
theorem telnet_read_poll_budget_never_breaks (t n : Nat) :
    read_loop (some t) 1 (List.replicate n []) [] = none := by
  induction n with
  | zero => simp [read_loop]
  | succ k ih =>
    rw [List.replicate_succ, read_loop]
    simpa [readIter] using ih

/-- Claim C3: `exec_raw_no_follow` writes the payload in successive chunks of
at most 256 bytes whose in-order concatenation equals the payload exactly,
followed by a single 0x04 after the final chunk. -/
theorem exec_raw_no_follow_chunking_lossless (cb ch : List Nat) :
    (writeChunks cb).flatten = cb ∧
    (∀ chunk ∈ writeChunks cb, chunk.length ≤ 256) ∧
    (exec_raw_no_follow cb ch).1 = writeChunks cb ++ [[4]] := by
  refine ⟨writeChunks_flatten cb, writeChunks_le256 cb, ?_⟩
  by_cases h : ch.take 2 ≠ okBytes <;> simp [exec_raw_no_follow, h]

/-- Claim C3 witness: the chunking facts evaluated on the payload `[1, 2, 3]`
(one chunk). -/
theorem exec_raw_no_follow_chunking_lossless_witness :
    (writeChunks [1, 2, 3]).flatten = [1, 2, 3] ∧
    ([1, 2, 3] : List Nat).length ≤ 256 ∧
    (exec_raw_no_follow [1, 2, 3] []).1 = writeChunks [1, 2, 3] ++ [[4]] :=
  ⟨(exec_raw_no_follow_chunking_lossless [1, 2, 3] []).1,
   (exec_raw_no_follow_chunking_lossless [1, 2, 3] []).2.1 [1, 2, 3] (by simp [writeChunks]),
   (exec_raw_no_follow_chunking_lossless [1, 2, 3] []).2.2⟩

/-- Claim C4: when the first read does not end with the 0x04 sentinel,
`follow` raises the first-EOF timeout `PyboardError` and never returns the
partial data; when the second read does not end with 0x04, it raises the
second-EOF timeout `PyboardError`. -/
theorem follow_missing_eof_raises (t : Option Nat) (c : Bool) (s out rest : List Nat) :
    (4 ∉ s →
      (follow t c s).1 = .error (.protocol "timeout waiting for first EOF reception")) ∧
    (4 ∉ out → 4 ∉ rest →
      (follow t c (out ++ 4 :: rest)).1 =
        .error (.protocol "timeout waiting for second EOF reception")) :=
  ⟨fun h => follow_err1 t c s h, fun h1 h2 => follow_err2 t c out rest h1 h2⟩

/-- Claim C4 witness: both timeout errors evaluated on concrete streams. -/
theorem follow_missing_eof_raises_witness :
    ((follow (some 10) false [104, 101]).1 =
      .error (.protocol "timeout waiting for first EOF reception")) ∧
    ((follow (some 10) false ([] ++ 4 :: [])).1 =
      .error (.protocol "timeout waiting for second EOF reception")) :=
  ⟨(follow_missing_eof_raises (some 10) false [104, 101] [] []).1 (by decide),
   (follow_missing_eof_raises (some 10) false [104, 101] [] []).2 (by decide) (by decide)⟩

/-- Claim C5: after the chunks and the 0x04 run sentinel, `exec_raw_no_follow`
reads exactly 2 bytes and succeeds exactly when they equal `b'OK'`; any other
value (including a shorter read) raises `PyboardError('could not exec
command')`. -/
theorem exec_raw_no_follow_ok_ack (cb ch : List Nat) :
    ((exec_raw_no_follow cb ch).2 = .ok (ch.drop 2) ↔ ch.take 2 = okBytes) ∧
    (ch.take 2 ≠ okBytes →
      (exec_raw_no_follow cb ch).2 = .error (.protocol "could not exec command")) := by
  by_cases h : ch.take 2 = okBytes <;> simp [exec_raw_no_follow, h]

/-- Claim C5 witness: the ack check evaluated on the 2-byte answer `b'NO'`. -/
theorem exec_raw_no_follow_ok_ack_witness :
    (exec_raw_no_follow [] [78, 79]).2 = .error (.protocol "could not exec command") :=
  (exec_raw_no_follow_ok_ack [] [78, 79]).2 (by decide)

/-- Claim C6: when the framed response carries non-empty error-output, `exec_`
raises `PyboardError('exception', ret, ret_err)` carrying exactly both output
streams (a value distinct from every protocol error); with empty error-output
it returns the normal-output bytes. -/
theorem exec_error_output_raises (cmd out err : List Nat)
    (hout : 4 ∉ out) (herr : 4 ∉ err) :
    (err ≠ [] →
      exec_ cmd (okBytes ++ (out ++ 4 :: (err ++ [4]))) =
        .error (.execException out err)) ∧
    (err = [] →
      exec_ cmd (okBytes ++ (out ++ 4 :: (err ++ [4]))) = .ok out) := by
  have h1 : (exec_raw_no_follow cmd (okBytes ++ (out ++ 4 :: (err ++ [4])))).2
      = .ok (out ++ 4 :: (err ++ [4])) := rfl
  have h2 : exec_raw cmd (some 10) false (okBytes ++ (out ++ 4 :: (err ++ [4])))
      = .ok (out, err) := by
    rw [exec_raw, h1]
    exact follow_ok (some 10) false out err hout herr
  constructor
  · intro hne
    simp [exec_, h2, hne]
  · intro he
    subst he
    simp only [List.nil_append] at h2
    simp [exec_, h2]

/-- Claim C6 witness: both branches of `exec_` evaluated on concrete framed
responses. -/
theorem exec_error_output_raises_witness :
    (exec_ [] (okBytes ++ ([120] ++ 4 :: ([121] ++ [4]))) =
      .error (.execException [120] [121])) ∧
    (exec_ [] (okBytes ++ ([120] ++ 4 :: ([] ++ [4]))) = .ok [120]) :=
  ⟨(exec_error_output_raises [] [120] [121] (by decide) (by decide)).1 (by decide),
   (exec_error_output_raises [] [120] [] (by decide) (by decide)).2 rfl⟩

/-- Claim C7: `TelnetToSerial` construction succeeds exactly when the three
literals `Login as:`, `Password:` and `for more information.` are each
observed in order; otherwise the whole construction fails with the handshake
`PyboardError` and the FIFO is never initialised (it exists only in the
success outcome). -/
theorem telnet_init_handshake_gates (u p : List Nat) (r : TelnetReads) :
    ((telnet_init u p r).2 = .ok [] ↔
      (bytesIn loginPrompt r.loginResp = true ∧
       bytesIn passwordPrompt r.passwordResp = true ∧
       bytesIn bannerNeedle r.bannerResp = true)) ∧
    (¬(bytesIn loginPrompt r.loginResp = true ∧
       bytesIn passwordPrompt r.passwordResp = true ∧
       bytesIn bannerNeedle r.bannerResp = true) →
      (telnet_init u p r).2 =
        .error (.protocol "Failed to establish a telnet connection with the board")) := by
  by_cases h1 : bytesIn loginPrompt r.loginResp <;>
  by_cases h2 : bytesIn passwordPrompt r.passwordResp <;>
  by_cases h3 : bytesIn bannerNeedle r.bannerResp <;>
  simp [telnet_init, h1, h2, h3]

/-- Claim C7 witness: against a transport that never emits any prompt the
construction fails with the handshake error. -/
theorem telnet_init_handshake_gates_witness :
    (telnet_init [117] [112] ⟨[], [], []⟩).2 =
      .error (.protocol "Failed to establish a telnet connection with the board") :=
  (telnet_init_handshake_gates [117] [112] ⟨[], [], []⟩).2 (by decide)

/-- Claim C8 counterexample: the address `"١.١.١.١"` (Arabic-Indic digits,
three dots) is classified as a network target by the source, although
neither its first nor its last character is an ASCII digit (`Char.isDigit`
is the ASCII-digit test), so the claimed only-if direction of the ASCII
characterisation is false of the program. -/
theorem pyboard_transport_selection_counterexample :
    pyboard_select arabicIndicAddr = Transport.telnet ∧
    arabicIndicAddr.head?.elim false Char.isDigit = false ∧
    arabicIndicAddr.getLast?.elim false Char.isDigit = false ∧
    List.count '.' arabicIndicAddr = 3 := by
  decide

/-- Claim C8 (amended): `Pyboard.__init__` selects the telnet transport
exactly when the device string is non-empty, its first and last characters
are Python `str.isdigit` digits — a Unicode digit test, not only ASCII — and
it contains exactly three dots; `192.168.1.1` is a network target while
`/dev/ttyACM0` and `COM3` are serial paths. -/
theorem pyboard_transport_selection_amended (device : List Char) :
    (pyboard_select device = Transport.telnet ↔
      (device.head?.elim false pyIsDigit = true ∧
       device.getLast?.elim false pyIsDigit = true ∧
       List.count '.' device = 3)) ∧
    pyboard_select "192.168.1.1".toList = Transport.telnet ∧
    pyboard_select "/dev/ttyACM0".toList = Transport.serial ∧
    pyboard_select "COM3".toList = Transport.serial := by
  refine ⟨?_, by decide, by decide, by decide⟩
  cases device with
  | nil => simp [pyboard_select]
  | cons c rest =>
    simp only [pyboard_select, List.head?_cons,
      List.getLast?_eq_getLast (c :: rest) (List.cons_ne_nil c rest), Option.elim]
    split
    case isTrue h =>
      simp only [Bool.and_eq_true, beq_iff_eq] at h
      simp [h.1.1, h.1.2, h.2]
    case isFalse h =>
      simp only [Bool.and_eq_true, beq_iff_eq, not_and] at h
      constructor
      · intro hc
        exact absurd hc (by simp)
      · intro hc
        exact absurd hc.2.2 (h ⟨hc.1, hc.2.1⟩)

/-- Claim C8 witness: the amended classification rule applied to
`192.168.1.1`. -/
theorem pyboard_transport_selection_amended_witness :
    pyboard_select "192.168.1.1".toList = Transport.telnet :=
  (pyboard_transport_selection_amended "192.168.1.1".toList).2.1

/-- Claim C9: the second `raise PyboardError('could not enter raw repl')`,
guarded by `not self.isPrompt`, is unreachable because the bound-method
object is always truthy; consequently `enter_raw_repl` raises exactly when
the data read does not end with the raw-REPL banner suffix. -/
theorem enter_raw_repl_second_raise_unreachable (data : List Nat) :
    (enter_raw_repl data = .ok () ↔ rawReplBanner.isSuffixOf data = true) ∧
    (enter_raw_repl data = .error (.protocol "could not enter raw repl") ↔
      rawReplBanner.isSuffixOf data = false) := by
  by_cases h : rawReplBanner.isSuffixOf data <;>
    simp [enter_raw_repl, isPrompt_methodObject_truthy, h]

/-- Claim C9 witness: a read ending in the banner suffix enters raw REPL. -/
theorem enter_raw_repl_second_raise_unreachable_witness :
    enter_raw_repl rawReplBanner = .ok () :=
  (enter_raw_repl_second_raise_unreachable rawReplBanner).1.mpr (by decide)

/-- Claim C10: the result of `follow` is independent of its timeout argument
(and `read_until` of both its `min_num_bytes` and `timeout` arguments),
because `read_until` ignores them and delegates to the channel's read-until
primitive. -/
theorem follow_timeout_independent (t1 t2 : Option Nat) (n1 n2 : Nat) (c : Bool)
    (s : List Nat) :
    read_until n1 t1 c s = read_until n2 t2 c s ∧ follow t1 c s = follow t2 c s :=
  ⟨rfl, rfl⟩
